import Mathlib

/-!
Verification of the per-topic auto-FAQ engine (`src/core/classifier.py`,
class `AutoFaq`): data model, corpus mutations, the adaptive confidence
threshold, and the prediction pipeline.  The data layer (`core/files`:
`Data`, `LinkedFaqEntry`) is not part of the source tree; those accessors
are modelled from the specification and marked as such.
-/

namespace DiscordFaq

/-- An FAQ entry as exposed by the data layer (`core/files.LinkedFaqEntry`):
stable integer id, mnemonic short key, answer text, example messages, and
the two append-only vote counters (`up_votes()`, `down_votes()`). -/
structure FaqEntry where
  id : Nat
  short : String
  answer : String
  messages : List String
  up_votes : Nat
  down_votes : Nat
deriving DecidableEq

/-- `entry.votes()`: total number of votes. -/
def FaqEntry.votes (e : FaqEntry) : Nat := e.up_votes + e.down_votes

/-- The per-topic corpus held by `Data`: the nonsense examples (class 0)
and the FAQ entries. -/
structure Corpus where
  nonsense : List String
  entries : List FaqEntry
deriving DecidableEq

/-- Splits a character list at every character satisfying `p`, keeping
empty segments, exactly like Python `str.split(sep)` for a one-character
separator: the number of segments is one more than the number of
separator occurrences. -/
def split_when (p : Char → Bool) : List Char → List (List Char)
  | [] => [[]]
  | c :: cs =>
    match split_when p cs with
    | [] => [[]]
    | t :: ts => if p c then [] :: t :: ts else (c :: t) :: ts

/-- Lower-cases every character of a string (Python `str.lower`, restricted
to the ASCII behaviour of `Char.toLower`). -/
def lower_string (s : String) : String := String.mk (s.toList.map Char.toLower)

/-- Joins token character lists with single spaces. -/
def join_words : List (List Char) → List Char
  | [] => []
  | [w] => w
  | w :: ws => w ++ (' ' :: join_words ws)

/-- Modelled from the spec: `Data.clean_message` from `core/files` (not in
src) — "deterministic cleaning of raw message text into a canonical token
string", used identically for training and inference; returns the empty
string when nothing meaningful remains.  Modelled as: lower-case, split on
non-alphanumeric characters, drop empty tokens, join with single spaces. -/
def clean_message (raw : String) : String :=
  String.mk (join_words
    ((split_when (fun c => !c.isAlphanum) (raw.toList.map Char.toLower)).filter
      (fun t => !t.isEmpty)))

/-- Modelled from the spec: the trainability check `Data.is_valid` from
`core/files` (not in src) — "a topic with fewer than two classes total, or
insufficient examples, is not trainable": at least two classes must have at
least one example (the nonsense class counts when non-empty). -/
def is_valid (c : Corpus) : Bool :=
  decide (2 ≤ (if c.nonsense.isEmpty then 0 else 1)
    + (c.entries.filter (fun e => !e.messages.isEmpty)).length)

/-- Modelled from the spec: `Data.faq_entry_by_short` from `core/files`
(not in src) — entry lookup by short key, case-insensitive. -/
def faq_entry_by_short (c : Corpus) (short : String) : Option FaqEntry :=
  c.entries.find? (fun e => lower_string e.short == lower_string short)

/-- Modelled from the spec: `Data.faq_entry_by_answer` from `core/files`
(not in src) — entry lookup by answer text, exact match. -/
def faq_entry_by_answer (c : Corpus) (answer : String) : Option FaqEntry :=
  c.entries.find? (fun e => e.answer == answer)

/-- Modelled from the spec: `Data.add_nonsense` from `core/files` (not in
src) — appends a cleaned text to the nonsense set. -/
def add_nonsense (c : Corpus) (text : String) : Corpus :=
  { c with nonsense := c.nonsense ++ [text] }

/-- Modelled from the spec: `Data.add_faq_entry` from `core/files` (not in
src) — creates a fresh entry with no examples and zero votes. -/
def add_faq_entry (c : Corpus) (answer short : String) : Corpus :=
  { c with entries :=
      c.entries ++ [{ id := c.entries.length, short := short, answer := answer,
                      messages := [], up_votes := 0, down_votes := 0 }] }

/-- Modelled from the spec: `LinkedFaqEntry.add_message` from `core/files`
(not in src) — appends a new example message to the entry with the given
(lower-cased) short key, unless the message is already present. -/
def add_message_to_entry (c : Corpus) (short content : String) : Corpus :=
  { c with entries := c.entries.map (fun e =>
      if lower_string e.short == short && !(e.messages.contains content)
      then { e with messages := e.messages ++ [content] } else e) }

/-- The multiset of training labels produced by `AutoFaq.__get_data__`:
one label 0 per nonsense text, one label id+1 per example message of each
entry. -/
def training_labels (c : Corpus) : List Nat :=
  c.nonsense.map (fun _ => 0)
    ++ (c.entries.map (fun e => e.messages.map (fun _ => e.id + 1))).flatten

/-- The class labels seen during fit, in ascending order: sklearn's
`classes_` for the training labels of `AutoFaq.__get_data__` (spec 4.3:
the fitted classifier has "one entry per class seen during fit").  A label
is absent when its class contributed no training row (an entry with zero
examples, or an empty nonsense set). -/
def fit_classes (c : Corpus) : List Nat :=
  (List.range (c.entries.foldl (fun m e => max m (e.id + 1)) 0 + 1)).filter
    (fun l => (training_labels c).contains l)

/-- The fitted `CountVectorizer`+`SVC` pair of an `AutoFaq` instance.
`trainedOn` records the corpus snapshot the pair was fitted from;
`classes` records the class labels seen during fit in ascending order
(sklearn `classes_`); `probs` abstracts `predict_proba ∘ transform`: for
a cleaned message, the probability row with one column per element of
`classes`, in that order — column i belongs to label `classes[i]`, which
differs from i when a label is missing from the training data. -/
structure TrainedPair where
  trainedOn : Corpus
  classes : List Nat
  probs : String → List ℚ

/-- The mutable fields of an `AutoFaq` instance: `self.data` and the
`self.vectorizer`/`self.classifier` pair (`none` when untrained). -/
structure AutoFaqState where
  data : Corpus
  pair : Option TrainedPair

/-- `AutoFaq.__load__`: returns without touching the trained pair when the
data is not valid; otherwise fits vectorizer and classifier from the
current corpus.  The fitting itself (`__get_data__`, `__load_vectorizer__`,
`__load_classifier__`, sklearn internals) is abstracted by the `fit`
parameter; the diagnostic test-split score is observational and omitted. -/
def load_state (fit : Corpus → String → List ℚ) (s : AutoFaqState) : AutoFaqState :=
  if is_valid s.data then
    { s with pair := some ⟨s.data, fit_classes s.data, fit s.data⟩ }
  else s

/-- `AutoFaq.refit`: reloads the topic data (`self.data = Data(self.topic)`,
the reloaded corpus passed explicitly since `Data` reads external storage)
and runs `__load__`. -/
def refit (fit : Corpus → String → List ℚ) (s : AutoFaqState) (reloaded : Corpus) :
    AutoFaqState :=
  load_state fit { s with data := reloaded }

/-- `len(message.split(" "))` from `AutoFaq.predict`: the number of
segments after splitting on the space character (empty segments count,
as in Python). -/
def word_count (message : String) : Nat :=
  (split_when (fun c => c == ' ') message.toList).length

/-- `p.max()`: maximum of the probability row (0 for an empty row). -/
def list_max (l : List ℚ) : ℚ :=
  match l with
  | [] => 0
  | h :: t => t.foldl max h

/-- `p.argmax()`: first index attaining the maximum of the row. -/
def argmax_idx (l : List ℚ) : Nat := l.indexOf (list_max l)

/-- `AutoFaq.predict`: `(None, None)` when untrained, when the message has
fewer than 3 space-separated segments, or when the cleaned message is
empty; otherwise maps the arg-max class back to an entry id
(`argmax - 1` when `argmax > 0`, else `None`) paired with the maximum
probability. -/
def predict (s : AutoFaqState) (message : String) : Option Nat × Option ℚ :=
  match s.pair with
  | none => (none, none)
  | some pr =>
    if word_count message < 3 then (none, none)
    else
      let m := clean_message message
      if m.length = 0 then (none, none)
      else
        let p := pr.probs m
        let amax := argmax_idx p
        (if 0 < amax then some (amax - 1) else none, some (list_max p))

/-- Outcome of `AutoFaq.create_answer`: `success` is the `True` return;
the three rejection branches carry the reported conflicting detail of the
ephemeral reply sent through the interaction. -/
inductive CreateResult where
  | success
  | reservedShort
  | duplicateShort (existingAnswer : String)
  | duplicateAnswer (existingShort : String)
deriving DecidableEq

/-- `AutoFaq.create_answer`: rejects the reserved short `"ignore"` (exact
comparison in the source), then a duplicate short (reporting the existing
answer), then a duplicate answer (reporting the existing short); otherwise
adds the entry.  The source calls no retrain here. -/
def create_answer (s : AutoFaqState) (answer short : String) :
    CreateResult × AutoFaqState :=
  if short == "ignore" then (CreateResult.reservedShort, s)
  else
    match faq_entry_by_short s.data short with
    | some e => (CreateResult.duplicateShort e.answer, s)
    | none =>
      match faq_entry_by_answer s.data answer with
      | some e => (CreateResult.duplicateAnswer e.short, s)
      | none => (CreateResult.success, { s with data := add_faq_entry s.data answer short })

/-- Visible outcome of `AutoFaq.add_message_by_short`: the thinking-face
reaction (ambiguous), the check-mark after a nonsense addition, or the
confirmation echo of the entry answer. -/
inductive AddSignal where
  | ambiguous
  | addedNonsense
  | confirmedEntry
deriving DecidableEq

/-- `AutoFaq.add_message_by_short`: cleans the referenced text (reacting
ambiguous when empty), lower-cases the token; `"ignore"` adds the cleaned
text to the nonsense set and refits; a token resolving to an entry short
appends the cleaned text as an example, echoes the answer and refits; any
other token reacts ambiguous with no data action.  The best-effort deletion
of an earlier auto-reply and the log lines have no corpus effect and are
omitted. -/
def add_message_by_short (fit : Corpus → String → List ℚ) (s : AutoFaqState)
    (referenced token : String) : AddSignal × AutoFaqState :=
  let content := clean_message referenced
  if content.length = 0 then (AddSignal.ambiguous, s)
  else
    let tok := lower_string token
    if tok == "ignore" then
      let s1 := { s with data := add_nonsense s.data content }
      (AddSignal.addedNonsense, refit fit s1 s1.data)
    else
      match faq_entry_by_short s.data tok with
      | some _ =>
        let s1 := { s with data := add_message_to_entry s.data tok content }
        (AddSignal.confirmedEntry, refit fit s1 s1.data)
      | none => (AddSignal.ambiguous, s)

/-- `AutoFaq.__calculate_threshold__` on the entry itself: the midpoint of
the configured band at zero votes, otherwise a vote-ratio blend with the
logarithmically saturating importance weight. -/
noncomputable def calculate_threshold (min_threshold max_threshold : ℝ)
    (e : FaqEntry) : ℝ :=
  if e.votes = 0 then 0.5 * min_threshold + 0.5 * max_threshold
  else
    let importance : ℝ := min (Real.log (e.votes : ℝ)) 1
    let blend : ℝ := importance * (e.up_votes : ℝ) / (e.votes : ℝ)
      + (1 - importance) * 0.5
    blend * min_threshold + (1 - blend) * max_threshold

/-- Unfolding lemma for the positive-votes branch of the threshold. -/
theorem calculate_threshold_of_votes_ne_zero (tmin tmax : ℝ) (e : FaqEntry)
    (h : e.votes ≠ 0) :
    calculate_threshold tmin tmax e =
      (min (Real.log (e.votes : ℝ)) 1 * (e.up_votes : ℝ) / (e.votes : ℝ)
        + (1 - min (Real.log (e.votes : ℝ)) 1) * 0.5) * tmin
      + (1 - (min (Real.log (e.votes : ℝ)) 1 * (e.up_votes : ℝ) / (e.votes : ℝ)
        + (1 - min (Real.log (e.votes : ℝ)) 1) * 0.5)) * tmax := by
  rw [calculate_threshold, if_neg h]

/-- Claim C3: for every FaqEntry with zero total votes, the threshold is
exactly the midpoint of the configured band. -/
theorem C3_zero_votes_midpoint (tmin tmax : ℝ) (e : FaqEntry)
    (h : e.votes = 0) :
    calculate_threshold tmin tmax e = 0.5 * tmin + 0.5 * tmax := by
  rw [calculate_threshold, if_pos h]

theorem C3_zero_votes_midpoint_witness :
    calculate_threshold 0.3 0.7 ⟨0, "hours", "We open at 9am", [], 0, 0⟩
      = 0.5 * 0.3 + 0.5 * 0.7 :=
  C3_zero_votes_midpoint 0.3 0.7 ⟨0, "hours", "We open at 9am", [], 0, 0⟩ rfl

/-- Claim C10: a single vote, whether up or down, leaves the threshold at
the zero-vote midpoint, because the importance weight ln(1) is zero. -/
theorem C10_single_vote_midpoint (tmin tmax : ℝ) (e : FaqEntry)
    (h : e.votes = 1) :
    calculate_threshold tmin tmax e = 0.5 * tmin + 0.5 * tmax := by
  rw [calculate_threshold_of_votes_ne_zero tmin tmax e (by rw [h]; exact one_ne_zero), h]
  norm_num [Real.log_one]

theorem C10_single_vote_midpoint_witness :
    calculate_threshold 0.3 0.7 ⟨0, "hours", "We open at 9am", [], 1, 0⟩
        = 0.5 * 0.3 + 0.5 * 0.7 ∧
      calculate_threshold 0.3 0.7 ⟨0, "hours", "We open at 9am", [], 0, 1⟩
        = 0.5 * 0.3 + 0.5 * 0.7 :=
  ⟨C10_single_vote_midpoint 0.3 0.7 ⟨0, "hours", "We open at 9am", [], 1, 0⟩ rfl,
   C10_single_vote_midpoint 0.3 0.7 ⟨0, "hours", "We open at 9am", [], 0, 1⟩ rfl⟩

/-- Shared bounds for the positive-votes branch: the importance weight and
the up-vote fraction both lie in the unit interval. -/
theorem importance_up_fraction_bounds (e : FaqEntry) (h : e.votes ≠ 0) :
    0 ≤ min (Real.log (e.votes : ℝ)) 1 ∧ min (Real.log (e.votes : ℝ)) 1 ≤ 1 ∧
      0 ≤ (e.up_votes : ℝ) / (e.votes : ℝ) ∧ (e.up_votes : ℝ) / (e.votes : ℝ) ≤ 1 := by
  have hv1 : (1 : ℝ) ≤ (e.votes : ℝ) := by
    exact_mod_cast Nat.one_le_iff_ne_zero.mpr h
  have hv0 : (0 : ℝ) < (e.votes : ℝ) := lt_of_lt_of_le zero_lt_one hv1
  have hup : (e.up_votes : ℝ) ≤ (e.votes : ℝ) := by
    exact_mod_cast Nat.le_add_right e.up_votes e.down_votes
  refine ⟨le_min (Real.log_nonneg hv1) zero_le_one, min_le_right _ _,
    div_nonneg (Nat.cast_nonneg _) hv0.le, (div_le_one hv0).mpr hup⟩

/-- Claim C2: for every entry and every configuration with
min_threshold < max_threshold, the computed threshold lies in the closed
band [min_threshold, max_threshold]. -/
theorem C2_threshold_in_bounds (tmin tmax : ℝ) (e : FaqEntry)
    (h : tmin < tmax) :
    tmin ≤ calculate_threshold tmin tmax e ∧ calculate_threshold tmin tmax e ≤ tmax := by
  by_cases hv : e.votes = 0
  · rw [calculate_threshold, if_pos hv]
    constructor <;> nlinarith
  · obtain ⟨hi0, hi1, hq0, hq1⟩ := importance_up_fraction_bounds e hv
    rw [calculate_threshold_of_votes_ne_zero tmin tmax e hv]
    rw [mul_div_assoc]
    set imp := min (Real.log (e.votes : ℝ)) 1 with himp
    set q := (e.up_votes : ℝ) / (e.votes : ℝ) with hqdef
    have hb0 : 0 ≤ imp * q + (1 - imp) * 0.5 := by nlinarith
    have hb1 : imp * q + (1 - imp) * 0.5 ≤ 1 := by nlinarith
    constructor <;> nlinarith

theorem C2_threshold_in_bounds_witness :
    (0.3 : ℝ) < 0.7 ∧
      (0.3 : ℝ) ≤ calculate_threshold 0.3 0.7 ⟨0, "hours", "We open at 9am", [], 2, 1⟩ ∧
      calculate_threshold 0.3 0.7 ⟨0, "hours", "We open at 9am", [], 2, 1⟩ ≤ 0.7 :=
  ⟨by norm_num,
   (C2_threshold_in_bounds 0.3 0.7 ⟨0, "hours", "We open at 9am", [], 2, 1⟩ (by norm_num)).1,
   (C2_threshold_in_bounds 0.3 0.7 ⟨0, "hours", "We open at 9am", [], 2, 1⟩ (by norm_num)).2⟩

/-- Claim C4: holding the total vote count fixed (at least one vote), a
higher up-vote fraction never yields a higher threshold. -/
theorem C4_threshold_antitone_in_approval (tmin tmax : ℝ) (e1 e2 : FaqEntry)
    (h : tmin < tmax) (hv : e1.votes = e2.votes) (hv1 : 1 ≤ e1.votes)
    (hr : (e2.up_votes : ℝ) / (e2.votes : ℝ) ≤ (e1.up_votes : ℝ) / (e1.votes : ℝ)) :
    calculate_threshold tmin tmax e1 ≤ calculate_threshold tmin tmax e2 := by
  have h1 : e1.votes ≠ 0 := Nat.one_le_iff_ne_zero.mp hv1
  have h2 : e2.votes ≠ 0 := hv ▸ h1
  obtain ⟨hi0, hi1, hq10, hq11⟩ := importance_up_fraction_bounds e1 h1
  obtain ⟨_, _, hq20, hq21⟩ := importance_up_fraction_bounds e2 h2
  rw [calculate_threshold_of_votes_ne_zero tmin tmax e1 h1,
    calculate_threshold_of_votes_ne_zero tmin tmax e2 h2, mul_div_assoc, mul_div_assoc, hv]
  rw [hv] at hr hq10 hq11 hi0 hi1
  set imp := min (Real.log (e2.votes : ℝ)) 1 with himp
  set q1 := (e1.up_votes : ℝ) / (e2.votes : ℝ) with hq1def
  set q2 := (e2.up_votes : ℝ) / (e2.votes : ℝ) with hq2def
  nlinarith [mul_nonneg (mul_nonneg hi0 (sub_nonneg.mpr hr)) (sub_nonneg.mpr h.le)]

theorem C4_threshold_antitone_in_approval_witness :
    calculate_threshold 0.3 0.7 ⟨0, "s1", "a1", [], 2, 1⟩
      ≤ calculate_threshold 0.3 0.7 ⟨1, "s2", "a2", [], 1, 2⟩ :=
  C4_threshold_antitone_in_approval 0.3 0.7 ⟨0, "s1", "a1", [], 2, 1⟩ ⟨1, "s2", "a2", [], 1, 2⟩
    (by norm_num) rfl (by norm_num [FaqEntry.votes])
    (by norm_num [FaqEntry.votes, FaqEntry.up_votes])

/-- Sample entry used by concrete witnesses (spec scenario: short
"hours"). -/
def sampleEntry : FaqEntry :=
  ⟨0, "hours", "We open at 9am", ["when do you open"], 0, 0⟩

/-- Sample corpus used by concrete witnesses (spec scenario). -/
def sampleCorpus : Corpus := ⟨["lol", "haha"], [sampleEntry]⟩

/-- A concrete probability row for the sample trained pair: class 1 (the
sample entry) dominates. -/
def sampleProbs : String → List ℚ := fun _ => [1, 9]

/-- A trained pair fitted from the sample corpus; its classes are the
labels seen during fit, here the gapless [0, 1]. -/
def samplePair : TrainedPair := ⟨sampleCorpus, fit_classes sampleCorpus, sampleProbs⟩

/-- A trained engine state over the sample corpus. -/
def sampleState : AutoFaqState := ⟨sampleCorpus, some samplePair⟩

/-- A concrete stand-in for the sklearn fitting pipeline. -/
def sampleFit : Corpus → String → List ℚ := fun _ _ => [5, 5]

/-- A corpus with no usable training class at all. -/
def emptyCorpus : Corpus := ⟨[], []⟩

/-- Stated from the claim's words, for comparison with the source's
space-character count: the number of whitespace-separated tokens of a
message, i.e. its maximal nonempty runs of non-whitespace characters. -/
def whitespace_token_count (message : String) : Nat :=
  ((split_when (fun c => c.isWhitespace) message.toList).filter
    (fun t => !t.isEmpty)).length

/-- Claim C5 counterexample: the source counts `len(message.split(" "))`
segments, empty segments included, not whitespace-separated tokens.  The
message "hi  there" (two consecutive spaces) has 2 whitespace-separated
tokens yet 3 space-split segments, so the trained sample state passes the
pre-filter and classifies it, returning a non-(none, none) result. -/
theorem C5_counterexample :
    whitespace_token_count ("hi  there") < 3 ∧
      predict sampleState ("hi  there") ≠ (none, none) := by
  refine ⟨by decide, by decide⟩

/-- Claim C5 as amended: a message whose space-character split
(`len(message.split(" "))`, empty segments included) has fewer than 3
segments is always rejected with (none, none), trained or untrained;
a message with fewer than 3 whitespace-separated tokens can still pass
the pre-filter when consecutive spaces pad the segment count. -/
theorem C5_short_message_rejected (s : AutoFaqState) (message : String)
    (h : word_count message < 3) :
    predict s message = (none, none) := by
  cases hs : s.pair with
  | none => simp only [predict, hs]
  | some pr => simp only [predict, hs, if_pos h]

theorem C5_short_message_rejected_witness :
    word_count ("hi there") < 3 ∧
      predict sampleState ("hi there") = (none, none) ∧
      predict ⟨sampleCorpus, none⟩ ("hi there") = (none, none) :=
  ⟨by decide, C5_short_message_rejected sampleState ("hi there") (by decide),
   C5_short_message_rejected ⟨sampleCorpus, none⟩ ("hi there") (by decide)⟩

/-- An entry created without examples (as create_answer does): its label
2 contributes no training row, leaving a gap in the labels seen during
fit. -/
def gapEntry1 : FaqEntry := ⟨1, "closing", "We close at 5pm", [], 0, 0⟩

/-- The entry whose training label 3 follows the gap. -/
def gapEntry2 : FaqEntry := ⟨2, "parking", "Parking is free", ["where can i park"], 0, 0⟩

/-- A corpus whose labels seen during fit are [0, 1, 3]: label 2 is
missing because gapEntry1 has no examples. -/
def gapCorpus : Corpus := ⟨["lol"], [sampleEntry, gapEntry1, gapEntry2]⟩

/-- A fit stand-in over the gap corpus: one probability column per class
seen during fit ([0, 1, 3]), the column of label 3 dominating. -/
def gapFit : Corpus → String → List ℚ := fun _ _ => [1, 2, 9]

/-- The engine state obtained by loading the gap corpus. -/
def gapState : AutoFaqState := load_state gapFit ⟨gapCorpus, none⟩

/-- Claim C6 counterexample: predict_proba columns follow the sorted
labels seen during fit, so with the reachable label gap of gapCorpus
(classes [0, 1, 3]) the arg-max column 2 carries label 3 — the class of
gapEntry2 (id 2) — yet predict returns argmax − 1 = some 1, not the id of
the entry whose training class label achieved the maximum. -/
theorem C6_counterexample :
    gapState.pair = some ⟨gapCorpus, [0, 1, 3], gapFit gapCorpus⟩ ∧
      ¬ word_count ("where can i park please") < 3 ∧
      (clean_message ("where can i park please")).length ≠ 0 ∧
      [0, 1, 3][argmax_idx (gapFit gapCorpus (clean_message ("where can i park please")))]?
        = some (gapEntry2.id + 1) ∧
      gapEntry2 ∈ gapState.data.entries ∧
      (predict gapState ("where can i park please")).1 ≠ some gapEntry2.id ∧
      (predict gapState ("where can i park please")).1 = some 1 := by
  refine ⟨rfl, by decide, by decide, by decide, by decide, by decide, by decide⟩

/-- Claim C6 as amended: past the pre-filters, predict maps the arg-max
by column position — none for the entry id exactly when the arg-max
column is 0, otherwise some (column − 1) — together with the maximum
probability; the returned id is the id of the FaqEntry whose training
class label (id + 1) achieved the maximum, and the none case coincides
with the nonsense class label 0 winning, only when the class labels seen
during fit form the contiguous range 0..k. -/
theorem C6_column_argmax_mapping (s : AutoFaqState) (message : String)
    (pr : TrainedPair) (h1 : s.pair = some pr)
    (h2 : ¬ word_count message < 3)
    (h3 : (clean_message message).length ≠ 0)
    (hcontig : pr.classes = List.range pr.classes.length) :
    ((predict s message).1 = none
        ↔ argmax_idx (pr.probs (clean_message message)) = 0) ∧
      (∀ k : Nat, argmax_idx (pr.probs (clean_message message)) = k + 1 →
        (predict s message).1 = some k) ∧
      (predict s message).2 = some (list_max (pr.probs (clean_message message))) ∧
      (∀ e : FaqEntry, e ∈ s.data.entries →
        pr.classes[argmax_idx (pr.probs (clean_message message))]? = some (e.id + 1) →
        (predict s message).1 = some e.id) ∧
      (argmax_idx (pr.probs (clean_message message)) < pr.classes.length →
        ((predict s message).1 = none
          ↔ pr.classes[argmax_idx (pr.probs (clean_message message))]? = some 0)) := by
  have hpred : predict s message =
      (if 0 < argmax_idx (pr.probs (clean_message message))
        then some (argmax_idx (pr.probs (clean_message message)) - 1) else none,
       some (list_max (pr.probs (clean_message message)))) := by
    simp only [predict, h1, if_neg h2, if_neg h3]
  have hget : ∀ i k : Nat, pr.classes[i]? = some k → k = i := by
    intro i k hk
    rw [hcontig] at hk
    by_cases hi : i < pr.classes.length
    · rw [List.getElem?_range hi] at hk
      exact (Option.some.inj hk).symm
    · rw [List.getElem?_eq_none (by simpa using not_lt.mp hi)] at hk
      exact absurd hk (by simp)
  have hiff : ((if 0 < argmax_idx (pr.probs (clean_message message))
        then some (argmax_idx (pr.probs (clean_message message)) - 1)
        else (none : Option Nat)) = none)
      ↔ argmax_idx (pr.probs (clean_message message)) = 0 := by
    constructor
    · intro hnone
      by_contra hne
      rw [if_pos (Nat.pos_of_ne_zero hne)] at hnone
      exact Option.some_ne_none _ hnone
    · intro h0
      rw [h0]
      rfl
  rw [hpred]
  refine ⟨hiff, ?_, rfl, ?_, ?_⟩
  · intro k hk
    rw [hk, if_pos (Nat.succ_pos k)]
    rfl
  · intro e _ hk
    have hid := hget _ _ hk
    rw [← hid, if_pos (Nat.succ_pos e.id)]
    rfl
  · intro hlt
    have hamax : pr.classes[argmax_idx (pr.probs (clean_message message))]?
        = some (argmax_idx (pr.probs (clean_message message))) := by
      rw [hcontig]
      exact List.getElem?_range hlt
    rw [hamax]
    constructor
    · intro hnone
      rw [hiff.mp hnone]
    · intro hs
      exact hiff.mpr (Option.some.inj hs)

theorem C6_column_argmax_mapping_witness :
    ((predict sampleState ("when do you open today")).1 = none
        ↔ argmax_idx (samplePair.probs (clean_message ("when do you open today"))) = 0) ∧
      (∀ k : Nat,
        argmax_idx (samplePair.probs (clean_message ("when do you open today"))) = k + 1 →
        (predict sampleState ("when do you open today")).1 = some k) ∧
      (predict sampleState ("when do you open today")).2
        = some (list_max (samplePair.probs (clean_message ("when do you open today")))) ∧
      (∀ e : FaqEntry, e ∈ sampleState.data.entries →
        samplePair.classes[argmax_idx
          (samplePair.probs (clean_message ("when do you open today")))]? = some (e.id + 1) →
        (predict sampleState ("when do you open today")).1 = some e.id) ∧
      (argmax_idx (samplePair.probs (clean_message ("when do you open today")))
          < samplePair.classes.length →
        ((predict sampleState ("when do you open today")).1 = none
          ↔ samplePair.classes[argmax_idx
              (samplePair.probs (clean_message ("when do you open today")))]? = some 0)) :=
  C6_column_argmax_mapping sampleState ("when do you open today") samplePair rfl
    (by decide) (by decide) (by decide)

/-- Claim C7 counterexample: the source compares the short against
"ignore" exactly, so the capitalised variant "Ignore" is not rejected on
an empty corpus — the call succeeds and creates an entry. -/
theorem C7_counterexample :
    (create_answer ⟨emptyCorpus, none⟩ ("Some answer") ("Ignore")).1
        = CreateResult.success ∧
      (create_answer ⟨emptyCorpus, none⟩ ("Some answer") ("Ignore")).2.data
        ≠ emptyCorpus := by
  constructor
  · rfl
  · decide

/-- Claim C7 as amended: create_answer rejects the reserved short exactly
when it is the lowercase string "ignore" (a case-sensitive comparison in
the source), leaving the state unchanged; capitalised variants pass the
reserved-word check. -/
theorem C7_exact_ignore_rejected (s : AutoFaqState) (answer : String) :
    create_answer s answer ("ignore") = (CreateResult.reservedShort, s) := rfl

/-- Claim C8: create_answer rejects a duplicate short reporting the
existing entry's answer, rejects a duplicate answer reporting the existing
entry's short, and every rejection leaves the state (hence the corpus)
unchanged. -/
theorem C8_duplicate_rejections (s : AutoFaqState) (answer short : String) :
    (∀ e : FaqEntry, short ≠ "ignore" →
      faq_entry_by_short s.data short = some e →
      create_answer s answer short = (CreateResult.duplicateShort e.answer, s)) ∧
    (∀ e : FaqEntry, short ≠ "ignore" →
      faq_entry_by_short s.data short = none →
      faq_entry_by_answer s.data answer = some e →
      create_answer s answer short = (CreateResult.duplicateAnswer e.short, s)) ∧
    (∀ r s2, create_answer s answer short = (r, s2) →
      r ≠ CreateResult.success → s2 = s) := by
  refine ⟨?_, ?_, ?_⟩
  · intro e hne hfind
    have hb : (short == "ignore") = false := beq_eq_false_iff_ne.mpr hne
    simp only [create_answer, hb, Bool.false_eq_true, if_false, hfind]
  · intro e hne hshort hans
    have hb : (short == "ignore") = false := beq_eq_false_iff_ne.mpr hne
    simp only [create_answer, hb, Bool.false_eq_true, if_false, hshort, hans]
  · intro r s2 heq hr
    unfold create_answer at heq
    split at heq
    · exact (Prod.mk.injEq _ _ _ _ ▸ heq).2.symm
    · split at heq
      · exact (Prod.mk.injEq _ _ _ _ ▸ heq).2.symm
      · split at heq
        · exact (Prod.mk.injEq _ _ _ _ ▸ heq).2.symm
        · exact absurd ((Prod.mk.injEq _ _ _ _ ▸ heq).1.symm) hr

theorem C8_duplicate_rejections_witness :
    ("HOURS" : String) ≠ "ignore" ∧
      faq_entry_by_short sampleCorpus ("HOURS") = some sampleEntry ∧
      create_answer ⟨sampleCorpus, none⟩ ("Another answer") ("HOURS")
        = (CreateResult.duplicateShort (sampleEntry.answer), ⟨sampleCorpus, none⟩) :=
  ⟨by decide, by decide,
   (C8_duplicate_rejections ⟨sampleCorpus, none⟩ ("Another answer") ("HOURS")).1
     sampleEntry (by decide) (by decide)⟩

/-- Claim C9: when the cleaned referenced text is empty, or the lowered
token is neither "ignore" nor an existing entry short, add_message_by_short
signals ambiguous and returns the state untouched (no example, nonsense
text or entry added, no retrain). -/
theorem C9_unresolvable_short_ambiguous (fit : Corpus → String → List ℚ)
    (s : AutoFaqState) (referenced token : String) :
    (clean_message referenced = "" →
      add_message_by_short fit s referenced token = (AddSignal.ambiguous, s)) ∧
    (lower_string token ≠ "ignore" →
      faq_entry_by_short s.data (lower_string token) = none →
      add_message_by_short fit s referenced token = (AddSignal.ambiguous, s)) := by
  constructor
  · intro h
    simp only [add_message_by_short, h]
    rfl
  · intro hne hfind
    by_cases hc : (clean_message referenced).length = 0
    · simp only [add_message_by_short, if_pos hc]
    · have hb : (lower_string token == "ignore") = false := beq_eq_false_iff_ne.mpr hne
      simp only [add_message_by_short, if_neg hc, hb, Bool.false_eq_true, if_false, hfind]

theorem C9_unresolvable_short_ambiguous_witness :
    lower_string ("Wat") ≠ "ignore" ∧
      faq_entry_by_short sampleCorpus (lower_string ("Wat")) = none ∧
      add_message_by_short sampleFit sampleState ("when do you open") ("Wat")
        = (AddSignal.ambiguous, sampleState) :=
  ⟨by decide, by decide,
   (C9_unresolvable_short_ambiguous sampleFit sampleState ("when do you open") ("Wat")).2
     (by decide) (by decide)⟩

/-- A refit whose reloaded corpus is trainable installs a pair fitted from
exactly that corpus. -/
theorem refit_of_is_valid (fit : Corpus → String → List ℚ) (s : AutoFaqState)
    (c : Corpus) (h : is_valid c = true) :
    refit fit s c = ⟨c, some ⟨c, fit_classes c, fit c⟩⟩ := by
  simp only [refit, load_state, h, if_true]

/-- A refit whose reloaded corpus is not trainable returns early from
`__load__`, keeping whatever pair was installed before. -/
theorem refit_of_not_is_valid (fit : Corpus → String → List ℚ) (s : AutoFaqState)
    (c : Corpus) (h : is_valid c = false) :
    refit fit s c = ⟨c, s.pair⟩ := by
  simp only [refit, load_state, h, Bool.false_eq_true, if_false]

/-- Claim C1 counterexample.  Two violations at concrete inputs, starting
from the trained sample state: (a) a successful create_answer mutates the
corpus but keeps the pair fitted from the pre-mutation corpus installed;
(b) a refit over a corpus that is no longer trainable keeps the old pair,
and the next predict call serves it (returning a probability instead of
(none, none)). -/
theorem C1_counterexample :
    ((create_answer sampleState ("We close at 5pm") ("closing")).1
        = CreateResult.success ∧
      (create_answer sampleState ("We close at 5pm") ("closing")).2.data
        ≠ sampleCorpus ∧
      (create_answer sampleState ("We close at 5pm") ("closing")).2.pair
        = some samplePair ∧
      samplePair.trainedOn = sampleCorpus) ∧
    (is_valid emptyCorpus = false ∧
      (refit sampleFit sampleState emptyCorpus).pair = some samplePair ∧
      (refit sampleFit sampleState emptyCorpus).data ≠ samplePair.trainedOn ∧
      (predict (refit sampleFit sampleState emptyCorpus) ("when do you open today")).2
        ≠ none) := by
  refine ⟨⟨rfl, by decide, rfl, rfl⟩, rfl, rfl, by decide, by decide⟩

/-- Claim C1 as amended: for corpus mutations through add_message_by_short
(example added or nonsense added), when the mutated corpus is still
trainable the pair is rebuilt synchronously from that mutated corpus
before the next predict call; create_answer, by contrast, performs no
retrain, and a refit over a no-longer-trainable corpus keeps serving the
previously trained pair. -/
theorem C1_addExample_rebuilds_pair (fit : Corpus → String → List ℚ)
    (s : AutoFaqState) (referenced token : String)
    (hmut : (add_message_by_short fit s referenced token).2.data ≠ s.data)
    (hval : is_valid ((add_message_by_short fit s referenced token).2.data) = true) :
    (add_message_by_short fit s referenced token).2.pair
      = some ⟨(add_message_by_short fit s referenced token).2.data,
              fit_classes ((add_message_by_short fit s referenced token).2.data),
              fit ((add_message_by_short fit s referenced token).2.data)⟩ := by
  by_cases hc : (clean_message referenced).length = 0
  · exact absurd (by simp only [add_message_by_short, if_pos hc]) hmut
  · by_cases hig : lower_string token = "ignore"
    · have hb : (lower_string token == "ignore") = true := beq_iff_eq.mpr hig
      have hform : add_message_by_short fit s referenced token
          = (AddSignal.addedNonsense,
             refit fit { s with data := add_nonsense s.data (clean_message referenced) }
               (add_nonsense s.data (clean_message referenced))) := by
        simp only [add_message_by_short, if_neg hc, hb, if_true]
      rw [hform] at hval ⊢
      by_cases hv : is_valid (add_nonsense s.data (clean_message referenced)) = true
      · rw [refit_of_is_valid fit _ _ hv]
      · rw [refit_of_not_is_valid fit _ _ (Bool.not_eq_true _ ▸ hv)] at hval
        exact absurd hval hv
    · have hb : (lower_string token == "ignore") = false := beq_eq_false_iff_ne.mpr hig
      cases hfind : faq_entry_by_short s.data (lower_string token) with
      | none =>
        exact absurd (by simp only [add_message_by_short, if_neg hc, hb,
          Bool.false_eq_true, if_false, hfind]) hmut
      | some e =>
        have hform : add_message_by_short fit s referenced token
            = (AddSignal.confirmedEntry,
               refit fit
                 { s with data := (add_message_to_entry s.data (lower_string token)
                     (clean_message referenced)) }
                 (add_message_to_entry s.data (lower_string token)
                     (clean_message referenced))) := by
          simp only [add_message_by_short, if_neg hc, hb, Bool.false_eq_true, if_false, hfind]
        rw [hform] at hval ⊢
        by_cases hv : is_valid (add_message_to_entry s.data (lower_string token)
            (clean_message referenced)) = true
        · rw [refit_of_is_valid fit _ _ hv]
        · rw [refit_of_not_is_valid fit _ _ (Bool.not_eq_true _ ▸ hv)] at hval
          exact absurd hval hv

theorem C1_addExample_rebuilds_pair_witness :
    (add_message_by_short sampleFit sampleState ("what time do you open") ("ignore")).2.data
        ≠ sampleState.data ∧
      is_valid ((add_message_by_short sampleFit sampleState
        ("what time do you open") ("ignore")).2.data) = true ∧
      (add_message_by_short sampleFit sampleState ("what time do you open") ("ignore")).2.pair
        = some ⟨(add_message_by_short sampleFit sampleState
                  ("what time do you open") ("ignore")).2.data,
                fit_classes ((add_message_by_short sampleFit sampleState
                  ("what time do you open") ("ignore")).2.data),
                sampleFit ((add_message_by_short sampleFit sampleState
                  ("what time do you open") ("ignore")).2.data)⟩ :=
  ⟨by decide, by decide,
   C1_addExample_rebuilds_pair sampleFit sampleState ("what time do you open") ("ignore")
     (by decide) (by decide)⟩

end DiscordFaq
